import Mathlib

/-!
Shallow embedding of the game controller coordinator implemented in
ultistats_server/storage/controller_storage.py.

Timestamps are modelled as integers (seconds); each operation that reads the
clock receives the current time as an explicit parameter. The module-level
dictionary mapping game ids to controller states is modelled as a function
from strings to optional states. Python dictionaries are mutated through
aliasing: an operation that mutates the state of a game already present in
the map persists that mutation even on return paths without an explicit
write-back, while for a game absent from the map only an explicit write-back
creates an entry. The boolean returned by each local operation records
whether the explicit write-back statement executed, which is what decides
between those two behaviours for absent games.
-/

namespace Coordinator

inductive RoleType
  | activeCoach
  | lineCoach
deriving DecidableEq

structure RoleHolder where
  userId : String
  displayName : String
  claimedAt : Int
  lastPing : Int
deriving DecidableEq

structure PendingHandoff where
  role : RoleType
  requesterId : String
  requesterName : String
  currentHolderId : String
  requestedAt : Int
  expiresAt : Int
deriving DecidableEq

structure ControllerState where
  activeCoach : Option RoleHolder
  lineCoach : Option RoleHolder
  pendingHandoff : Option PendingHandoff
deriving DecidableEq

/-- Role expires if no ping received within this time (seconds). -/
def STALE_TIMEOUT_SECONDS : Int := 30

/-- Handoff auto-approves after this time (seconds). -/
def HANDOFF_EXPIRY_SECONDS : Int := 10

/-- Embeds the helper building a fresh empty per-game state. -/
def get_empty_state : ControllerState :=
  { activeCoach := none, lineCoach := none, pendingHandoff := none }

/-- Reading the dictionary field named by a role literal. -/
def ControllerState.getRole (s : ControllerState) : RoleType → Option RoleHolder
  | RoleType.activeCoach => s.activeCoach
  | RoleType.lineCoach => s.lineCoach

/-- Writing the dictionary field named by a role literal. -/
def ControllerState.setRole (s : ControllerState) : RoleType → Option RoleHolder → ControllerState
  | RoleType.activeCoach, h => { s with activeCoach := h }
  | RoleType.lineCoach, h => { s with lineCoach := h }

/-- Embeds the staleness helper: a missing holder counts as stale, and an
existing one is stale when its last ping lies more than the stale timeout
in the past. -/
def is_stale (rh : Option RoleHolder) (now : Int) : Bool :=
  match rh with
  | none => true
  | some h => decide (STALE_TIMEOUT_SECONDS < now - h.lastPing)

/-- Embeds the expiry helper: a missing handoff is not expired, an existing
one is expired when the clock has passed its expiry instant. -/
def is_handoff_expired (ph : Option PendingHandoff) (now : Int) : Bool :=
  match ph with
  | none => false
  | some h => decide (h.expiresAt < now)

/-- Embeds the auto-approval helper: transfer the targeted role to the
requester with fresh timestamps and clear the pending handoff. -/
def auto_approve_handoff (s : ControllerState) (now : Int) : ControllerState :=
  match s.pendingHandoff with
  | none => s
  | some h =>
      let holder : RoleHolder :=
        { userId := h.requesterId, displayName := h.requesterName,
          claimedAt := now, lastPing := now }
      { s.setRole h.role (some holder) with pendingHandoff := none }

/-- Embeds the stale-claim cleanup loop: each of the two role fields is set
to vacant exactly when its current content is stale. The loop body for one
role does not affect the staleness test of the other, so the two updates
are independent. -/
def cleanStale (s : ControllerState) (now : Int) : ControllerState :=
  { s with
    activeCoach := if is_stale s.activeCoach now then none else s.activeCoach,
    lineCoach := if is_stale s.lineCoach now then none else s.lineCoach }

/-- The two lazy corrections as they appear at the top of the read, claim
and request-handoff operations: stale cleanup first, then auto-approval of
an expired handoff. -/
def applyCorrections (s : ControllerState) (now : Int) : ControllerState :=
  let s1 := cleanStale s now
  if is_handoff_expired s1.pendingHandoff now then auto_approve_handoff s1 now else s1

inductive ClaimResult
  | success (state : ControllerState)
  | occupied (currentHolder : RoleHolder) (state : ControllerState)
deriving DecidableEq

inductive RequestResult
  | success (handoff : PendingHandoff) (state : ControllerState)
  | failure (reason : String)
deriving DecidableEq

inductive RespondResult
  | success (accepted : Bool) (state : ControllerState)
  | failure (reason : String)
deriving DecidableEq

inductive SimpleResult
  | success (state : ControllerState)
  | failure (reason : String)
deriving DecidableEq

/-- Per-game body of the read operation: apply the corrections, store the
result back (the source always writes the entry), and return a copy. -/
def get_controller_state_local (s : ControllerState) (now : Int) :
    ControllerState × ControllerState × Bool :=
  let s1 := applyCorrections s now
  (s1, s1, true)

/-- Decision logic of the claim operation, taken after the corrections have
run: refresh on self-claim, install on vacancy, otherwise report the
occupying holder. Every branch executes the explicit write-back. -/
def claim_core (role : RoleType) (user_id display_name : String)
    (s : ControllerState) (now : Int) : ClaimResult × ControllerState × Bool :=
  match s.getRole role with
  | some h =>
      if h.userId = user_id then
        let s1 := s.setRole role (some { h with lastPing := now })
        (ClaimResult.success s1, s1, true)
      else
        (ClaimResult.occupied h s, s, true)
  | none =>
      let holder : RoleHolder :=
        { userId := user_id, displayName := display_name,
          claimedAt := now, lastPing := now }
      let s1 := s.setRole role (some holder)
      (ClaimResult.success s1, s1, true)

/-- Per-game body of the claim operation: corrections first, then the
decision logic. -/
def claim_role_local (role : RoleType) (user_id display_name : String)
    (s : ControllerState) (now : Int) : ClaimResult × ControllerState × Bool :=
  claim_core role user_id display_name (applyCorrections s now) now

/-- Decision logic of the request-handoff operation, taken after the
corrections have run. Only the vacant-failure branch and the success branch
execute the explicit write-back. -/
def request_core (role : RoleType) (requester_id requester_name : String)
    (s : ControllerState) (now : Int) : RequestResult × ControllerState × Bool :=
  match s.getRole role with
  | none => (RequestResult.failure "role_vacant", s, true)
  | some h =>
      if h.userId = requester_id then
        (RequestResult.failure "already_holder", s, false)
      else
        match s.pendingHandoff with
        | some _ => (RequestResult.failure "handoff_pending", s, false)
        | none =>
            let hf : PendingHandoff :=
              { role := role, requesterId := requester_id, requesterName := requester_name,
                currentHolderId := h.userId, requestedAt := now,
                expiresAt := now + HANDOFF_EXPIRY_SECONDS }
            let s1 := { s with pendingHandoff := some hf }
            (RequestResult.success hf s1, s1, true)

/-- Per-game body of the request-handoff operation: corrections first, then
the decision logic. -/
def request_handoff_local (role : RoleType) (requester_id requester_name : String)
    (s : ControllerState) (now : Int) : RequestResult × ControllerState × Bool :=
  request_core role requester_id requester_name (applyCorrections s now) now

/-- Per-game body of the respond-to-handoff operation. The source applies no
corrections here: it reads the stored pending handoff directly. -/
def respond_to_handoff_local (user_id : String) (accept : Bool)
    (s : ControllerState) (now : Int) : RespondResult × ControllerState × Bool :=
  match s.pendingHandoff with
  | none => (RespondResult.failure "no_pending_handoff", s, false)
  | some h =>
      if h.currentHolderId ≠ user_id then
        (RespondResult.failure "not_holder", s, false)
      else
        let s1 := { s with pendingHandoff := none }
        if accept then
          let holder : RoleHolder :=
            { userId := h.requesterId, displayName := h.requesterName,
              claimedAt := now, lastPing := now }
          let s2 := s1.setRole h.role (some holder)
          (RespondResult.success true s2, s2, true)
        else
          (RespondResult.success false s1, s1, true)

/-- Per-game body of the release operation. The source applies no
corrections here. A pending handoff is cleared exactly when it targets the
released role. -/
def release_role_local (role : RoleType) (user_id : String)
    (s : ControllerState) : SimpleResult × ControllerState × Bool :=
  match s.getRole role with
  | none => (SimpleResult.failure "not_holder", s, false)
  | some h =>
      if h.userId ≠ user_id then
        (SimpleResult.failure "not_holder", s, false)
      else
        let s1 := s.setRole role none
        let s2 :=
          match s1.pendingHandoff with
          | some ph => if ph.role = role then { s1 with pendingHandoff := none } else s1
          | none => s1
        (SimpleResult.success s2, s2, true)

/-- Per-game body of the ping operation. The source applies no corrections
here: it compares the caller against the stored holder, stale or not. -/
def ping_role_local (role : RoleType) (user_id : String)
    (s : ControllerState) (now : Int) : SimpleResult × ControllerState × Bool :=
  match s.getRole role with
  | none => (SimpleResult.failure "not_holder", s, false)
  | some h =>
      if h.userId ≠ user_id then
        (SimpleResult.failure "not_holder", s, false)
      else
        let s1 := s.setRole role (some { h with lastPing := now })
        (SimpleResult.success s1, s1, true)

/-- The module-level map from game id to controller state. -/
def Store : Type := String → Option ControllerState

/-- Explicit write-back of a game entry. -/
def storeSet (m : Store) (g : String) (s : ControllerState) : Store :=
  fun g2 => if g2 = g then some s else m g2

/-- Persistence through dictionary aliasing: a present entry observes the
mutations, an absent one stays absent. -/
def storeAlias (m : Store) (g : String) (s : ControllerState) : Store :=
  fun g2 => if g2 = g then (m g).map (fun _ => s) else m g2

/-- Runs a per-game operation body against the map: fetch the entry or a
fresh empty state, run the body, and persist by explicit write-back or by
aliasing according to the body's write flag. -/
def liftOp {α : Type} (f : ControllerState → α × ControllerState × Bool)
    (m : Store) (g : String) : α × Store :=
  let s := (m g).getD get_empty_state
  let r := f s
  (r.1, if r.2.2 then storeSet m g r.2.1 else storeAlias m g r.2.1)

def get_controller_state (m : Store) (g : String) (now : Int) : ControllerState × Store :=
  liftOp (fun s => get_controller_state_local s now) m g

def claim_role (m : Store) (g : String) (role : RoleType) (u d : String) (now : Int) :
    ClaimResult × Store :=
  liftOp (fun s => claim_role_local role u d s now) m g

def request_handoff (m : Store) (g : String) (role : RoleType) (rid rname : String)
    (now : Int) : RequestResult × Store :=
  liftOp (fun s => request_handoff_local role rid rname s now) m g

def respond_to_handoff (m : Store) (g : String) (u : String) (accept : Bool) (now : Int) :
    RespondResult × Store :=
  liftOp (fun s => respond_to_handoff_local u accept s now) m g

def release_role (m : Store) (g : String) (role : RoleType) (u : String) :
    SimpleResult × Store :=
  liftOp (fun s => release_role_local role u s) m g

def ping_role (m : Store) (g : String) (role : RoleType) (u : String) (now : Int) :
    SimpleResult × Store :=
  liftOp (fun s => ping_role_local role u s now) m g

/-- Embeds clear_game_state: drop the entry for one game. -/
def clear_game_state (m : Store) (g : String) : Store :=
  fun g2 => if g2 = g then none else m g2

/-- Boolean success test for a claim result. -/
def ClaimResult.isSuccess : ClaimResult → Bool
  | ClaimResult.success _ => true
  | ClaimResult.occupied _ _ => false

/-- Boolean success test for a release or ping result. -/
def SimpleResult.isSuccess : SimpleResult → Bool
  | SimpleResult.success _ => true
  | SimpleResult.failure _ => false

theorem getRole_setRole_self (s : ControllerState) (r : RoleType) (h : Option RoleHolder) :
    (s.setRole r h).getRole r = h := by
  cases r <;> rfl

theorem getRole_setRole_of_ne (s : ControllerState) {r r2 : RoleType} (h : Option RoleHolder)
    (hne : r2 ≠ r) : (s.setRole r h).getRole r2 = s.getRole r2 := by
  cases r <;> cases r2 <;> first | rfl | exact absurd rfl hne

theorem setRole_pendingHandoff (s : ControllerState) (r : RoleType) (h : Option RoleHolder) :
    (s.setRole r h).pendingHandoff = s.pendingHandoff := by
  cases r <;> rfl

theorem getRole_update_pendingHandoff (s : ControllerState) (p : Option PendingHandoff)
    (r : RoleType) : ControllerState.getRole { s with pendingHandoff := p } r = s.getRole r := by
  cases r <;> rfl

theorem cleanStale_pendingHandoff (s : ControllerState) (now : Int) :
    (cleanStale s now).pendingHandoff = s.pendingHandoff := rfl

theorem cleanStale_getRole (s : ControllerState) (now : Int) (r : RoleType) :
    (cleanStale s now).getRole r = if is_stale (s.getRole r) now then none else s.getRole r := by
  cases r <;> rfl

theorem applyCorrections_of_not_expired (s : ControllerState) (now : Int)
    (h : is_handoff_expired s.pendingHandoff now = false) :
    applyCorrections s now = cleanStale s now := by
  simp only [applyCorrections]
  rw [cleanStale_pendingHandoff, h]
  simp

theorem applyCorrections_of_expired (s : ControllerState) (now : Int) (ph : PendingHandoff)
    (hph : s.pendingHandoff = some ph) (hx : ph.expiresAt < now) :
    applyCorrections s now =
      { (cleanStale s now).setRole ph.role
          (some { userId := ph.requesterId, displayName := ph.requesterName,
                  claimedAt := now, lastPing := now }) with
        pendingHandoff := none } := by
  have h1 : (cleanStale s now).pendingHandoff = some ph := by
    rw [cleanStale_pendingHandoff, hph]
  simp only [applyCorrections]
  rw [h1]
  simp [is_handoff_expired, hx, auto_approve_handoff, h1]

/-- Expiry is monotone in time: a handoff not yet expired at a later instant
was not expired at any earlier one. -/
theorem is_handoff_expired_mono (ph : Option PendingHandoff) (t1 t2 : Int)
    (hle : t1 ≤ t2) (h : is_handoff_expired ph t2 = false) :
    is_handoff_expired ph t1 = false := by
  cases ph with
  | none => rfl
  | some p =>
      simp only [is_handoff_expired, decide_eq_false_iff_not, not_lt] at h ⊢
      omega

/-- Sample holder used by concrete instantiations. -/
def wAlice : RoleHolder :=
  { userId := "alice", displayName := "Alice", claimedAt := 0, lastPing := 0 }

/-- Second sample holder used by concrete instantiations. -/
def wDan : RoleHolder :=
  { userId := "dan", displayName := "Dan", claimedAt := 0, lastPing := 0 }

/-- Sample pending handoff targeting the active coach, expiring at 10. -/
def wHandoffA : PendingHandoff :=
  { role := RoleType.activeCoach, requesterId := "bob", requesterName := "Bob",
    currentHolderId := "alice", requestedAt := 0, expiresAt := 10 }

/-- Sample state: alice holds the active coach role and bob has requested a
handoff of it. -/
def wState : ControllerState :=
  { activeCoach := some wAlice, lineCoach := none, pendingHandoff := some wHandoffA }

/-- Sample state with both roles held and a handoff on the active coach. -/
def wState2 : ControllerState :=
  { activeCoach := some wAlice, lineCoach := some wDan, pendingHandoff := some wHandoffA }

/-- Claim C3: when the expired-handoff correction fires on a read of a game
whose pending handoff has passed its expiry, the targeted role's holder
becomes a new role holder carrying the requester's id and name with
claimedAt = lastPing = now, and the pending handoff field becomes empty,
without any explicit accept by the previous holder. -/
theorem C3_auto_approval (s : ControllerState) (now : Int) (ph : PendingHandoff)
    (hph : s.pendingHandoff = some ph) (hx : ph.expiresAt < now) :
    (get_controller_state_local s now).1.getRole ph.role =
      some { userId := ph.requesterId, displayName := ph.requesterName,
             claimedAt := now, lastPing := now } ∧
    (get_controller_state_local s now).1.pendingHandoff = none := by
  have h2 := applyCorrections_of_expired s now ph hph hx
  constructor
  · show (applyCorrections s now).getRole ph.role = _
    rw [h2, getRole_update_pendingHandoff, getRole_setRole_self]
  · show (applyCorrections s now).pendingHandoff = none
    rw [h2]

theorem C3_auto_approval_witness :
    wState.pendingHandoff = some wHandoffA ∧ wHandoffA.expiresAt < (100 : Int) ∧
    ((get_controller_state_local wState 100).1.getRole wHandoffA.role =
      some { userId := wHandoffA.requesterId, displayName := wHandoffA.requesterName,
             claimedAt := 100, lastPing := 100 } ∧
     (get_controller_state_local wState 100).1.pendingHandoff = none) :=
  ⟨rfl, by decide, C3_auto_approval wState 100 wHandoffA rfl (by decide)⟩

/-- Claim C4: respondToHandoff fails no_pending_handoff when no handoff
exists, fails not_holder when the caller differs from the handoff's
recorded current holder, on accept transfers the targeted role to the
requester with fresh claimedAt and lastPing and clears the handoff, and on
deny clears the handoff while leaving both role holders exactly as they
were, so the holder's lastPing is not refreshed by a deny. -/
theorem C4_respond (s : ControllerState) (now : Int) (u : String) (acc : Bool)
    (ph : PendingHandoff) :
    (s.pendingHandoff = none →
      respond_to_handoff_local u acc s now =
        (RespondResult.failure "no_pending_handoff", s, false)) ∧
    (s.pendingHandoff = some ph → ph.currentHolderId ≠ u →
      respond_to_handoff_local u acc s now = (RespondResult.failure "not_holder", s, false)) ∧
    (s.pendingHandoff = some ph → ph.currentHolderId = u →
      (respond_to_handoff_local u true s now).2.1.getRole ph.role =
        some { userId := ph.requesterId, displayName := ph.requesterName,
               claimedAt := now, lastPing := now } ∧
      (respond_to_handoff_local u true s now).2.1.pendingHandoff = none ∧
      (respond_to_handoff_local u true s now).1 =
        RespondResult.success true (respond_to_handoff_local u true s now).2.1) ∧
    (s.pendingHandoff = some ph → ph.currentHolderId = u →
      respond_to_handoff_local u false s now =
        (RespondResult.success false { s with pendingHandoff := none },
          { s with pendingHandoff := none }, true) ∧
      (∀ r, ControllerState.getRole { s with pendingHandoff := none } r = s.getRole r)) := by
  refine ⟨?_, ?_, ?_, ?_⟩
  · intro h
    simp [respond_to_handoff_local, h]
  · intro h hne
    simp [respond_to_handoff_local, h, hne]
  · intro h he
    simp [respond_to_handoff_local, h, he, getRole_setRole_self, setRole_pendingHandoff]
  · intro h he
    refine ⟨?_, fun r => getRole_update_pendingHandoff s none r⟩
    simp [respond_to_handoff_local, h, he]

theorem C4_respond_witness :
    ((respond_to_handoff_local "alice" true wState 100).2.1.getRole wHandoffA.role =
      some { userId := wHandoffA.requesterId, displayName := wHandoffA.requesterName,
             claimedAt := 100, lastPing := 100 } ∧
     (respond_to_handoff_local "alice" true wState 100).2.1.pendingHandoff = none ∧
     (respond_to_handoff_local "alice" true wState 100).1 =
       RespondResult.success true (respond_to_handoff_local "alice" true wState 100).2.1) ∧
    (respond_to_handoff_local "alice" false wState 100 =
      (RespondResult.success false { wState with pendingHandoff := none },
        { wState with pendingHandoff := none }, true) ∧
     (∀ r, ControllerState.getRole { wState with pendingHandoff := none } r = wState.getRole r)) :=
  ⟨(C4_respond wState 100 "alice" true wHandoffA).2.2.1 rfl rfl,
   (C4_respond wState 100 "alice" true wHandoffA).2.2.2 rfl rfl⟩

/-- Claim C7: release fails not_holder when the caller is not the stored
holder of the role, and otherwise vacates the role, leaves the other role
untouched, and clears the pending handoff exactly when that handoff targets
the released role. -/
theorem C7_release (s : ControllerState) (role : RoleType) (u : String) :
    (s.getRole role = none →
      release_role_local role u s = (SimpleResult.failure "not_holder", s, false)) ∧
    (∀ h, s.getRole role = some h → h.userId ≠ u →
      release_role_local role u s = (SimpleResult.failure "not_holder", s, false)) ∧
    (∀ h, s.getRole role = some h → h.userId = u →
      (release_role_local role u s).1 = SimpleResult.success (release_role_local role u s).2.1 ∧
      (release_role_local role u s).2.1.getRole role = none ∧
      (∀ r2, r2 ≠ role → (release_role_local role u s).2.1.getRole r2 = s.getRole r2) ∧
      (s.pendingHandoff = none → (release_role_local role u s).2.1.pendingHandoff = none) ∧
      (∀ ph, s.pendingHandoff = some ph → ph.role = role →
        (release_role_local role u s).2.1.pendingHandoff = none) ∧
      (∀ ph, s.pendingHandoff = some ph → ph.role ≠ role →
        (release_role_local role u s).2.1.pendingHandoff = some ph)) := by
  refine ⟨?_, ?_, ?_⟩
  · intro h
    simp [release_role_local, h]
  · intro h hh hne
    simp [release_role_local, hh, hne]
  · intro h hh he
    cases hph : s.pendingHandoff with
    | none =>
        simp [release_role_local, hh, he, hph, setRole_pendingHandoff,
          getRole_setRole_self]
        exact fun r2 hr2 => getRole_setRole_of_ne s none hr2
    | some ph =>
        by_cases hr : ph.role = role
        · simp [release_role_local, hh, he, hph, hr, setRole_pendingHandoff,
            getRole_setRole_self, getRole_update_pendingHandoff]
          exact fun r2 hr2 => getRole_setRole_of_ne s none hr2
        · simp [release_role_local, hh, he, hph, hr, setRole_pendingHandoff,
            getRole_setRole_self]
          exact fun r2 hr2 => getRole_setRole_of_ne s none hr2

theorem C7_release_witness :
    (release_role_local RoleType.activeCoach "carol" wState2 =
      (SimpleResult.failure "not_holder", wState2, false)) ∧
    ((release_role_local RoleType.activeCoach "alice" wState2).1 =
      SimpleResult.success (release_role_local RoleType.activeCoach "alice" wState2).2.1 ∧
     (release_role_local RoleType.activeCoach "alice" wState2).2.1.getRole
       RoleType.activeCoach = none ∧
     (release_role_local RoleType.activeCoach "alice" wState2).2.1.pendingHandoff = none) ∧
    ((release_role_local RoleType.lineCoach "dan" wState2).2.1.pendingHandoff =
      some wHandoffA) :=
  ⟨(C7_release wState2 RoleType.activeCoach "carol").2.1 wAlice rfl (by decide),
   ⟨((C7_release wState2 RoleType.activeCoach "alice").2.2 wAlice rfl rfl).1,
    ((C7_release wState2 RoleType.activeCoach "alice").2.2 wAlice rfl rfl).2.1,
    ((C7_release wState2 RoleType.activeCoach "alice").2.2 wAlice rfl rfl).2.2.2.2.1
      wHandoffA rfl rfl⟩,
   ((C7_release wState2 RoleType.lineCoach "dan").2.2 wDan rfl rfl).2.2.2.2.2
     wHandoffA rfl (by decide)⟩

/-- Sample state with alice holding the active coach role and no pending
handoff. -/
def wStateNoH : ControllerState :=
  { activeCoach := some wAlice, lineCoach := none, pendingHandoff := none }

/-- The pending-handoff record built by the request operation. -/
def mkHandoff (role : RoleType) (rid rname hid : String) (now : Int) : PendingHandoff :=
  { role := role, requesterId := rid, requesterName := rname, currentHolderId := hid,
    requestedAt := now, expiresAt := now + HANDOFF_EXPIRY_SECONDS }

/-- Claim C5: requestHandoff fails role_vacant when the role is vacant
after the corrections, fails already_holder when the requester already
holds it, fails handoff_pending when any handoff is already in flight for
the game whatever role it targets, and otherwise succeeds with a pending
handoff whose expiresAt is its requestedAt plus the handoff expiry
constant, which equals 10 seconds. -/
theorem C5_request (s : ControllerState) (now : Int) (role : RoleType)
    (rid rname : String) :
    HANDOFF_EXPIRY_SECONDS = 10 ∧
    ((applyCorrections s now).getRole role = none →
      request_handoff_local role rid rname s now =
        (RequestResult.failure "role_vacant", applyCorrections s now, true)) ∧
    (∀ h, (applyCorrections s now).getRole role = some h → h.userId = rid →
      request_handoff_local role rid rname s now =
        (RequestResult.failure "already_holder", applyCorrections s now, false)) ∧
    (∀ h ph, (applyCorrections s now).getRole role = some h → h.userId ≠ rid →
      (applyCorrections s now).pendingHandoff = some ph →
      request_handoff_local role rid rname s now =
        (RequestResult.failure "handoff_pending", applyCorrections s now, false)) ∧
    (∀ h, (applyCorrections s now).getRole role = some h → h.userId ≠ rid →
      (applyCorrections s now).pendingHandoff = none →
      ∃ hf s1, request_handoff_local role rid rname s now =
          (RequestResult.success hf s1, s1, true) ∧
        hf.role = role ∧ hf.requesterId = rid ∧ hf.requesterName = rname ∧
        hf.currentHolderId = h.userId ∧ hf.requestedAt = now ∧
        hf.expiresAt = hf.requestedAt + HANDOFF_EXPIRY_SECONDS ∧
        s1.pendingHandoff = some hf ∧
        (∀ r2, s1.getRole r2 = (applyCorrections s now).getRole r2)) := by
  refine ⟨rfl, ?_, ?_, ?_, ?_⟩
  · intro hh
    simp [request_handoff_local, request_core, hh]
  · intro h hh he
    simp [request_handoff_local, request_core, hh, he]
  · intro h ph hh hne hph
    simp [request_handoff_local, request_core, hh, hne, hph]
  · intro h hh hne hph
    refine ⟨mkHandoff role rid rname h.userId now,
      { applyCorrections s now with
        pendingHandoff := some (mkHandoff role rid rname h.userId now) },
      ?_, rfl, rfl, rfl, rfl, rfl, rfl, rfl,
      fun r2 => getRole_update_pendingHandoff _ _ r2⟩
    simp [request_handoff_local, request_core, mkHandoff, hh, hne, hph]

theorem C5_request_witness :
    (request_handoff_local RoleType.lineCoach "bob" "Bob" wStateNoH 5 =
      (RequestResult.failure "role_vacant", applyCorrections wStateNoH 5, true)) ∧
    (∃ hf s1, request_handoff_local RoleType.activeCoach "bob" "Bob" wStateNoH 5 =
        (RequestResult.success hf s1, s1, true) ∧
      hf.role = RoleType.activeCoach ∧ hf.requesterId = "bob" ∧ hf.requesterName = "Bob" ∧
      hf.currentHolderId = wAlice.userId ∧ hf.requestedAt = 5 ∧
      hf.expiresAt = hf.requestedAt + HANDOFF_EXPIRY_SECONDS ∧
      s1.pendingHandoff = some hf ∧
      (∀ r2, s1.getRole r2 = (applyCorrections wStateNoH 5).getRole r2)) :=
  ⟨(C5_request wStateNoH 5 RoleType.lineCoach "bob" "Bob").2.1 (by decide),
   (C5_request wStateNoH 5 RoleType.activeCoach "bob" "Bob").2.2.2.2 wAlice
     (by decide) (by decide) (by decide)⟩

/-- Claim C6: claim succeeds and installs the caller when the role is
vacant after the corrections, succeeds and refreshes the holder's lastPing
to now (strictly increasing it whenever the clock has advanced past the
stored lastPing) when the caller already holds the role, and fails with
reason occupied carrying the actual post-correction holder when a
different user holds it. -/
theorem C6_claim (s : ControllerState) (now : Int) (role : RoleType) (u d : String) :
    ((applyCorrections s now).getRole role = none →
      ∃ s1, claim_role_local role u d s now = (ClaimResult.success s1, s1, true) ∧
        s1.getRole role =
          some { userId := u, displayName := d, claimedAt := now, lastPing := now }) ∧
    (∀ h, (applyCorrections s now).getRole role = some h → h.userId = u →
      ∃ s1, claim_role_local role u d s now = (ClaimResult.success s1, s1, true) ∧
        s1.getRole role = some { h with lastPing := now } ∧
        (∀ h2, s1.getRole role = some h2 → h.lastPing < now → h.lastPing < h2.lastPing)) ∧
    (∀ h, (applyCorrections s now).getRole role = some h → h.userId ≠ u →
      claim_role_local role u d s now =
        (ClaimResult.occupied h (applyCorrections s now), applyCorrections s now, true)) := by
  refine ⟨?_, ?_, ?_⟩
  · intro hh
    refine ⟨(applyCorrections s now).setRole role
      (some { userId := u, displayName := d, claimedAt := now, lastPing := now }),
      ?_, getRole_setRole_self _ _ _⟩
    simp [claim_role_local, claim_core, hh]
  · intro h hh he
    refine ⟨(applyCorrections s now).setRole role (some { h with lastPing := now }),
      ?_, getRole_setRole_self _ _ _, ?_⟩
    · simp [claim_role_local, claim_core, hh, he]
    · intro h2 hh2 hlt
      rw [getRole_setRole_self] at hh2
      cases hh2
      exact hlt
  · intro h hh hne
    simp [claim_role_local, claim_core, hh, hne]

theorem C6_claim_witness :
    (∃ s1, claim_role_local RoleType.lineCoach "carol" "C" wStateNoH 5 =
        (ClaimResult.success s1, s1, true) ∧
      s1.getRole RoleType.lineCoach =
        some { userId := "carol", displayName := "C", claimedAt := 5, lastPing := 5 }) ∧
    (∃ s1, claim_role_local RoleType.activeCoach "alice" "Alice" wStateNoH 5 =
        (ClaimResult.success s1, s1, true) ∧
      s1.getRole RoleType.activeCoach = some { wAlice with lastPing := 5 } ∧
      (∀ h2, s1.getRole RoleType.activeCoach = some h2 → wAlice.lastPing < 5 →
        wAlice.lastPing < h2.lastPing)) ∧
    (claim_role_local RoleType.activeCoach "bob" "Bob" wStateNoH 5 =
      (ClaimResult.occupied wAlice (applyCorrections wStateNoH 5),
        applyCorrections wStateNoH 5, true)) :=
  ⟨(C6_claim wStateNoH 5 RoleType.lineCoach "carol" "C").1 (by decide),
   (C6_claim wStateNoH 5 RoleType.activeCoach "alice" "Alice").2.1 wAlice
     (by decide) rfl,
   (C6_claim wStateNoH 5 RoleType.activeCoach "bob" "Bob").2.2 wAlice
     (by decide) (by decide)⟩

/-- Claiming a vacant role installs the caller with fresh timestamps. -/
theorem claim_core_vacant (role : RoleType) (u d : String) (t : ControllerState)
    (now : Int) (hh : t.getRole role = none) :
    claim_core role u d t now =
      (ClaimResult.success
        (t.setRole role
          (some { userId := u, displayName := d, claimedAt := now, lastPing := now })),
       t.setRole role
         (some { userId := u, displayName := d, claimedAt := now, lastPing := now }),
       true) := by
  simp [claim_core, hh]

/-- Claim C2 (amended): if the role holder's lastPing is more than the
stale timeout in the past and the game's pending handoff, if any, has not
expired by the claim time, then the next read reports the role vacant and
a subsequent claim of that role by a different userId succeeds. -/
theorem C2_staleness (s : ControllerState) (now now2 : Int) (role : RoleType)
    (h : RoleHolder) (u2 d2 : String)
    (hh : s.getRole role = some h)
    (hstale : STALE_TIMEOUT_SECONDS < now - h.lastPing)
    (hle : now ≤ now2)
    (hno : is_handoff_expired s.pendingHandoff now2 = false)
    (_hne : u2 ≠ h.userId) :
    (get_controller_state_local s now).1.getRole role = none ∧
    ∃ s2, claim_role_local role u2 d2 (get_controller_state_local s now).2.1 now2 =
        (ClaimResult.success s2, s2, true) ∧
      s2.getRole role =
        some { userId := u2, displayName := d2, claimedAt := now2, lastPing := now2 } := by
  have hno1 : is_handoff_expired s.pendingHandoff now = false :=
    is_handoff_expired_mono _ now now2 hle hno
  have hac : applyCorrections s now = cleanStale s now :=
    applyCorrections_of_not_expired s now hno1
  have hstaleb : is_stale (s.getRole role) now = true := by
    rw [hh]
    simpa [is_stale] using hstale
  have hvac : (cleanStale s now).getRole role = none := by
    rw [cleanStale_getRole, hstaleb]
    simp
  have hac2 : applyCorrections (cleanStale s now) now2 = cleanStale (cleanStale s now) now2 := by
    apply applyCorrections_of_not_expired
    rw [cleanStale_pendingHandoff]
    exact hno
  have hvac2 : (applyCorrections (applyCorrections s now) now2).getRole role = none := by
    rw [hac, hac2, cleanStale_getRole, hvac]
    simp
  constructor
  · show (applyCorrections s now).getRole role = none
    rw [hac]
    exact hvac
  · refine ⟨(applyCorrections (applyCorrections s now) now2).setRole role
      (some { userId := u2, displayName := d2, claimedAt := now2, lastPing := now2 }),
      ?_, getRole_setRole_self _ _ _⟩
    show claim_core role u2 d2 (applyCorrections (applyCorrections s now) now2) now2 = _
    exact claim_core_vacant role u2 d2 _ now2 hvac2

/-- Claim C2 fails as frozen: with a stale holder and an expired pending
handoff targeting the same role, the next read reports the role held by
the handoff requester rather than vacant, and a subsequent claim by a
different user does not succeed. -/
theorem C2_counterexample :
    STALE_TIMEOUT_SECONDS < (100 : Int) - wAlice.lastPing ∧
    (get_controller_state_local wState 100).1.getRole RoleType.activeCoach ≠ none ∧
    (claim_role_local RoleType.activeCoach "carol" "C"
      (get_controller_state_local wState 100).2.1 100).1.isSuccess = false := by
  refine ⟨by decide, by decide, by decide⟩

/-- Claim C1 (amended): reading the state, claim and requestHandoff apply
the two lazy corrections before their own success and failure logic, but
respondToHandoff, release and ping do not; consequently a stale holder
still pings and releases successfully, and an expired pending handoff can
still be denied through respondToHandoff by its recorded current holder. -/
theorem C1_corrections (s : ControllerState) (now : Int) (role : RoleType)
    (u d rid rname : String) :
    ((get_controller_state_local s now).1 = applyCorrections s now ∧
     (get_controller_state_local s now).2.1 = applyCorrections s now) ∧
    claim_role_local role u d s now = claim_core role u d (applyCorrections s now) now ∧
    request_handoff_local role rid rname s now =
      request_core role rid rname (applyCorrections s now) now ∧
    (∀ h, s.getRole role = some h → h.userId = u → is_stale (some h) now = true →
      (ping_role_local role u s now).1.isSuccess = true) ∧
    (∀ h, s.getRole role = some h → h.userId = u → is_stale (some h) now = true →
      (release_role_local role u s).1.isSuccess = true) ∧
    (∀ ph, s.pendingHandoff = some ph → is_handoff_expired (some ph) now = true →
      respond_to_handoff_local ph.currentHolderId false s now =
        (RespondResult.success false { s with pendingHandoff := none },
         { s with pendingHandoff := none }, true)) := by
  refine ⟨⟨rfl, rfl⟩, rfl, rfl, ?_, ?_, ?_⟩
  · intro h hh he _
    simp [ping_role_local, hh, he, SimpleResult.isSuccess]
  · intro h hh he _
    simp [release_role_local, hh, he, SimpleResult.isSuccess]
  · intro ph hph _
    simp [respond_to_handoff_local, hph]

/-- Claim C1 fails as frozen: a holder stale at time 100 still pings and
releases successfully, and a pending handoff already expired at time 100
is still denied successfully by its recorded current holder. -/
theorem C1_counterexample :
    is_stale wState.activeCoach 100 = true ∧
    (ping_role_local RoleType.activeCoach "alice" wState 100).1.isSuccess = true ∧
    (release_role_local RoleType.activeCoach "alice" wState).1.isSuccess = true ∧
    is_handoff_expired wState.pendingHandoff 100 = true ∧
    (respond_to_handoff_local "alice" false wState 100).1 =
      RespondResult.success false { wState with pendingHandoff := none } := by
  refine ⟨by decide, by decide, by decide, by decide, by decide⟩

/-- Claim C10: claiming a role left vacant by a stale holder is not blocked
by an in-flight handoff; the handoff survives the claim unchanged, the new
holder is rejected as not_holder by respondToHandoff, and the recorded
former holder can still accept, transferring the role to the requester and
away from the new holder. -/
theorem C10_handoff_vs_claim (s : ControllerState) (now now2 : Int) (ph : PendingHandoff)
    (u d : String)
    (hph : s.pendingHandoff = some ph)
    (hnx : is_handoff_expired (some ph) now = false)
    (hstale : is_stale (s.getRole ph.role) now = true)
    (hu : u ≠ ph.currentHolderId) :
    ∃ s1, claim_role_local ph.role u d s now = (ClaimResult.success s1, s1, true) ∧
      s1.pendingHandoff = some ph ∧
      s1.getRole ph.role =
        some { userId := u, displayName := d, claimedAt := now, lastPing := now } ∧
      (∀ acc, respond_to_handoff_local u acc s1 now2 =
        (RespondResult.failure "not_holder", s1, false)) ∧
      ∃ s2, respond_to_handoff_local ph.currentHolderId true s1 now2 =
          (RespondResult.success true s2, s2, true) ∧
        s2.getRole ph.role =
          some { userId := ph.requesterId, displayName := ph.requesterName,
                 claimedAt := now2, lastPing := now2 } ∧
        s2.pendingHandoff = none := by
  have hno : is_handoff_expired s.pendingHandoff now = false := by
    rw [hph]
    exact hnx
  have hac : applyCorrections s now = cleanStale s now :=
    applyCorrections_of_not_expired s now hno
  have hvac : (applyCorrections s now).getRole ph.role = none := by
    rw [hac, cleanStale_getRole, hstale]
    simp
  have hcu : ph.currentHolderId ≠ u := Ne.symm hu
  refine ⟨(applyCorrections s now).setRole ph.role
    (some { userId := u, displayName := d, claimedAt := now, lastPing := now }),
    ?_, ?_, getRole_setRole_self _ _ _, ?_, ?_⟩
  · show claim_core ph.role u d (applyCorrections s now) now = _
    exact claim_core_vacant ph.role u d _ now hvac
  · rw [setRole_pendingHandoff, hac, cleanStale_pendingHandoff, hph]
  · intro acc
    have hs1 : ((applyCorrections s now).setRole ph.role
        (some { userId := u, displayName := d, claimedAt := now, lastPing := now })).pendingHandoff
        = some ph := by
      rw [setRole_pendingHandoff, hac, cleanStale_pendingHandoff, hph]
    simp [respond_to_handoff_local, hs1, hcu]
  · have hs1 : ((applyCorrections s now).setRole ph.role
        (some { userId := u, displayName := d, claimedAt := now, lastPing := now })).pendingHandoff
        = some ph := by
      rw [setRole_pendingHandoff, hac, cleanStale_pendingHandoff, hph]
    refine ⟨ControllerState.setRole
      { (applyCorrections s now).setRole ph.role
          (some { userId := u, displayName := d, claimedAt := now, lastPing := now }) with
        pendingHandoff := none } ph.role
      (some { userId := ph.requesterId, displayName := ph.requesterName,
              claimedAt := now2, lastPing := now2 }),
      ?_, getRole_setRole_self _ _ _, setRole_pendingHandoff _ _ _⟩
    simp [respond_to_handoff_local, hs1]

theorem C2_staleness_witness :
    STALE_TIMEOUT_SECONDS < (50 : Int) - wAlice.lastPing ∧
    ((get_controller_state_local wStateNoH 50).1.getRole RoleType.activeCoach = none ∧
     ∃ s2, claim_role_local RoleType.activeCoach "bob" "B"
         (get_controller_state_local wStateNoH 50).2.1 50 =
         (ClaimResult.success s2, s2, true) ∧
       s2.getRole RoleType.activeCoach =
         some { userId := "bob", displayName := "B", claimedAt := 50, lastPing := 50 }) :=
  ⟨by decide,
   C2_staleness wStateNoH 50 50 RoleType.activeCoach wAlice "bob" "B" rfl
     (by decide) (by decide) rfl (by decide)⟩

theorem C1_corrections_witness :
    (ping_role_local RoleType.activeCoach "alice" wState 100).1.isSuccess = true ∧
    (release_role_local RoleType.activeCoach "alice" wState).1.isSuccess = true ∧
    respond_to_handoff_local wHandoffA.currentHolderId false wState 100 =
      (RespondResult.success false { wState with pendingHandoff := none },
       { wState with pendingHandoff := none }, true) :=
  ⟨(C1_corrections wState 100 RoleType.activeCoach "alice" "Alice" "bob" "Bob").2.2.2.1
     wAlice rfl rfl (by decide),
   (C1_corrections wState 100 RoleType.activeCoach "alice" "Alice" "bob" "Bob").2.2.2.2.1
     wAlice rfl rfl (by decide),
   (C1_corrections wState 100 RoleType.activeCoach "alice" "Alice" "bob" "Bob").2.2.2.2.2
     wHandoffA rfl (by decide)⟩

/-- Sample pending handoff targeting the active coach, expiring at 50. -/
def wHandoffLate : PendingHandoff :=
  { role := RoleType.activeCoach, requesterId := "bob", requesterName := "Bob",
    currentHolderId := "alice", requestedAt := 0, expiresAt := 50 }

/-- Sample state: alice holds the active coach role, bob's handoff of it
expires at 50. -/
def wStateLate : ControllerState :=
  { activeCoach := some wAlice, lineCoach := none, pendingHandoff := some wHandoffLate }

theorem C10_handoff_vs_claim_witness :
    ∃ s1, claim_role_local wHandoffLate.role "carol" "C" wStateLate 40 =
        (ClaimResult.success s1, s1, true) ∧
      s1.pendingHandoff = some wHandoffLate ∧
      s1.getRole wHandoffLate.role =
        some { userId := "carol", displayName := "C", claimedAt := 40, lastPing := 40 } ∧
      (∀ acc, respond_to_handoff_local "carol" acc s1 41 =
        (RespondResult.failure "not_holder", s1, false)) ∧
      ∃ s2, respond_to_handoff_local wHandoffLate.currentHolderId true s1 41 =
          (RespondResult.success true s2, s2, true) ∧
        s2.getRole wHandoffLate.role =
          some { userId := wHandoffLate.requesterId, displayName := wHandoffLate.requesterName,
                 claimedAt := 41, lastPing := 41 } ∧
        s2.pendingHandoff = none :=
  C10_handoff_vs_claim wStateLate 40 41 wHandoffLate "carol" "C" rfl
    (by decide) (by decide) (by decide)

/-- Requester and recorded holder of any stored pending handoff differ. -/
def handoffConsistent (s : ControllerState) : Prop :=
  ∀ ph, s.pendingHandoff = some ph → ph.requesterId ≠ ph.currentHolderId

/-- One coordinator operation acting on a single game's stored state. -/
inductive GameStep : ControllerState → ControllerState → Prop
  | read (s : ControllerState) (now : Int) :
      GameStep s (get_controller_state_local s now).2.1
  | claim (s : ControllerState) (now : Int) (role : RoleType) (u d : String) :
      GameStep s (claim_role_local role u d s now).2.1
  | request (s : ControllerState) (now : Int) (role : RoleType) (rid rname : String) :
      GameStep s (request_handoff_local role rid rname s now).2.1
  | respond (s : ControllerState) (now : Int) (u : String) (acc : Bool) :
      GameStep s (respond_to_handoff_local u acc s now).2.1
  | release (s : ControllerState) (role : RoleType) (u : String) :
      GameStep s (release_role_local role u s).2.1
  | ping (s : ControllerState) (now : Int) (role : RoleType) (u : String) :
      GameStep s (ping_role_local role u s now).2.1
  | clear (s : ControllerState) : GameStep s get_empty_state

/-- States of one game reachable from the initial empty state through
coordinator operations. -/
inductive ReachableState : ControllerState → Prop
  | init : ReachableState get_empty_state
  | step {s s2 : ControllerState} :
      ReachableState s → GameStep s s2 → ReachableState s2

theorem auto_approve_pendingHandoff (t : ControllerState) (now : Int) :
    (auto_approve_handoff t now).pendingHandoff = none := by
  cases htp : t.pendingHandoff with
  | none => simp [auto_approve_handoff, htp]
  | some h => simp [auto_approve_handoff, htp]

theorem handoffConsistent_applyCorrections (s : ControllerState) (now : Int)
    (hs : handoffConsistent s) : handoffConsistent (applyCorrections s now) := by
  intro ph hph
  simp only [applyCorrections] at hph
  split at hph
  · rw [auto_approve_pendingHandoff] at hph
    exact absurd hph (by simp)
  · rw [cleanStale_pendingHandoff] at hph
    exact hs ph hph

theorem claim_core_pendingHandoff (role : RoleType) (u d : String) (t : ControllerState)
    (now : Int) : (claim_core role u d t now).2.1.pendingHandoff = t.pendingHandoff := by
  cases hg : t.getRole role with
  | none => simp [claim_core, hg, setRole_pendingHandoff]
  | some h => by_cases hu : h.userId = u <;> simp [claim_core, hg, hu, setRole_pendingHandoff]

theorem request_core_handoffConsistent (role : RoleType) (rid rname : String)
    (t : ControllerState) (now : Int) (hs : handoffConsistent t) :
    handoffConsistent (request_core role rid rname t now).2.1 := by
  cases hg : t.getRole role with
  | none => simpa [request_core, hg] using hs
  | some h =>
      by_cases hu : h.userId = rid
      · simpa [request_core, hg, hu] using hs
      · cases hp : t.pendingHandoff with
        | some ph0 => simpa [request_core, hg, hu, hp] using hs
        | none =>
            intro ph hph
            simp [request_core, hg, hu, hp] at hph
            subst hph
            intro hc
            exact hu hc.symm

theorem respond_handoffConsistent (u : String) (acc : Bool) (s : ControllerState)
    (now : Int) (hs : handoffConsistent s) :
    handoffConsistent (respond_to_handoff_local u acc s now).2.1 := by
  cases hp : s.pendingHandoff with
  | none => simpa [respond_to_handoff_local, hp] using hs
  | some h =>
      by_cases hcu : h.currentHolderId = u
      · cases acc with
        | true =>
            intro ph hph
            simp [respond_to_handoff_local, hp, hcu, setRole_pendingHandoff] at hph
        | false =>
            intro ph hph
            simp [respond_to_handoff_local, hp, hcu] at hph
      · simpa [respond_to_handoff_local, hp, hcu] using hs

theorem release_handoffConsistent (role : RoleType) (u : String) (s : ControllerState)
    (hs : handoffConsistent s) :
    handoffConsistent (release_role_local role u s).2.1 := by
  cases hg : s.getRole role with
  | none => simpa [release_role_local, hg] using hs
  | some h =>
      by_cases hu : h.userId = u
      · cases hp : s.pendingHandoff with
        | none =>
            intro ph hph
            simp [release_role_local, hg, hu, hp, setRole_pendingHandoff] at hph
        | some ph0 =>
            by_cases hr : ph0.role = role
            · intro ph hph
              simp [release_role_local, hg, hu, hp, hr, setRole_pendingHandoff] at hph
            · intro ph hph
              simp [release_role_local, hg, hu, hp, hr, setRole_pendingHandoff] at hph
              subst hph
              exact hs _ hp
      · simpa [release_role_local, hg, hu] using hs

theorem ping_pendingHandoff (role : RoleType) (u : String) (s : ControllerState)
    (now : Int) : (ping_role_local role u s now).2.1.pendingHandoff = s.pendingHandoff := by
  cases hg : s.getRole role with
  | none => simp [ping_role_local, hg]
  | some h => by_cases hu : h.userId = u <;> simp [ping_role_local, hg, hu, setRole_pendingHandoff]

theorem gameStep_handoffConsistent {s s2 : ControllerState} (hstep : GameStep s s2)
    (hs : handoffConsistent s) : handoffConsistent s2 := by
  cases hstep with
  | read now => exact handoffConsistent_applyCorrections s now hs
  | claim now role u d =>
      intro ph hph
      rw [show (claim_role_local role u d s now).2.1.pendingHandoff
          = (applyCorrections s now).pendingHandoff
        from claim_core_pendingHandoff role u d (applyCorrections s now) now] at hph
      exact handoffConsistent_applyCorrections s now hs ph hph
  | request now role rid rname =>
      exact request_core_handoffConsistent role rid rname (applyCorrections s now) now
        (handoffConsistent_applyCorrections s now hs)
  | respond now u acc => exact respond_handoffConsistent u acc s now hs
  | release role u => exact release_handoffConsistent role u s hs
  | ping now role u =>
      intro ph hph
      rw [ping_pendingHandoff role u s now] at hph
      exact hs ph hph
  | clear =>
      intro ph hph
      cases hph

theorem reachable_handoffConsistent (s : ControllerState) (hr : ReachableState s) :
    handoffConsistent s := by
  induction hr with
  | init =>
      intro ph hph
      cases hph
  | step hr2 hstep ih => exact gameStep_handoffConsistent hstep ih

/-- Claim C8: every state reachable by coordinator operations on a game
stores at most one pending handoff, and any stored pending handoff has a
requester different from its recorded current holder. -/
theorem C8_invariant (s : ControllerState) (hr : ReachableState s) :
    (∀ ph1 ph2, s.pendingHandoff = some ph1 → s.pendingHandoff = some ph2 → ph1 = ph2) ∧
    (∀ ph, s.pendingHandoff = some ph → ph.requesterId ≠ ph.currentHolderId) := by
  refine ⟨?_, reachable_handoffConsistent s hr⟩
  intro ph1 ph2 h1 h2
  rw [h1] at h2
  exact Option.some.inj h2

/-- Stored state after alice claims the active coach role of a fresh game. -/
def c8s1 : ControllerState :=
  (claim_role_local RoleType.activeCoach "alice" "Alice" get_empty_state 0).2.1

/-- Stored state after bob then requests a handoff of that role. -/
def c8s2 : ControllerState :=
  (request_handoff_local RoleType.activeCoach "bob" "Bob" c8s1 1).2.1

theorem C8_invariant_witness :
    (∀ ph1 ph2, c8s2.pendingHandoff = some ph1 → c8s2.pendingHandoff = some ph2 → ph1 = ph2) ∧
    (∀ ph, c8s2.pendingHandoff = some ph → ph.requesterId ≠ ph.currentHolderId) :=
  C8_invariant c8s2
    (ReachableState.step
      (ReachableState.step ReachableState.init
        (GameStep.claim get_empty_state 0 RoleType.activeCoach "alice" "Alice"))
      (GameStep.request c8s1 1 RoleType.activeCoach "bob" "Bob"))

theorem liftOp_frame {α : Type} (f : ControllerState → α × ControllerState × Bool)
    (m : Store) (g b : String) (hb : b ≠ g) : (liftOp f m g).2 b = m b := by
  simp only [liftOp]
  split
  · simp [storeSet, hb]
  · simp [storeAlias, hb]

theorem liftOp_congr {α : Type} (f : ControllerState → α × ControllerState × Bool)
    (m m2 : Store) (g : String) (hg : m g = m2 g) :
    (liftOp f m g).1 = (liftOp f m2 g).1 ∧ (liftOp f m g).2 g = (liftOp f m2 g).2 g := by
  constructor
  · simp [liftOp, hg]
  · simp only [liftOp, hg]
    split
    · simp [storeSet]
    · simp [storeAlias, hg]

/-- Claim C9: every coordinator operation invoked for game g leaves the
stored state of any other game b unchanged, and both its returned payload
and the resulting entry for g depend only on g's prior entry. -/
theorem C9_game_isolation (m m2 : Store) (g b : String) (now : Int) (role : RoleType)
    (u d : String) (acc : Bool) (hb : b ≠ g) (hg : m g = m2 g) :
    ((get_controller_state m g now).2 b = m b ∧
     (claim_role m g role u d now).2 b = m b ∧
     (request_handoff m g role u d now).2 b = m b ∧
     (respond_to_handoff m g u acc now).2 b = m b ∧
     (release_role m g role u).2 b = m b ∧
     (ping_role m g role u now).2 b = m b ∧
     clear_game_state m g b = m b) ∧
    ((get_controller_state m g now).1 = (get_controller_state m2 g now).1 ∧
     (get_controller_state m g now).2 g = (get_controller_state m2 g now).2 g ∧
     (claim_role m g role u d now).1 = (claim_role m2 g role u d now).1 ∧
     (claim_role m g role u d now).2 g = (claim_role m2 g role u d now).2 g ∧
     (request_handoff m g role u d now).1 = (request_handoff m2 g role u d now).1 ∧
     (request_handoff m g role u d now).2 g = (request_handoff m2 g role u d now).2 g ∧
     (respond_to_handoff m g u acc now).1 = (respond_to_handoff m2 g u acc now).1 ∧
     (respond_to_handoff m g u acc now).2 g = (respond_to_handoff m2 g u acc now).2 g ∧
     (release_role m g role u).1 = (release_role m2 g role u).1 ∧
     (release_role m g role u).2 g = (release_role m2 g role u).2 g ∧
     (ping_role m g role u now).1 = (ping_role m2 g role u now).1 ∧
     (ping_role m g role u now).2 g = (ping_role m2 g role u now).2 g ∧
     clear_game_state m g g = clear_game_state m2 g g) := by
  refine ⟨⟨liftOp_frame _ m g b hb, liftOp_frame _ m g b hb, liftOp_frame _ m g b hb,
      liftOp_frame _ m g b hb, liftOp_frame _ m g b hb, liftOp_frame _ m g b hb, ?_⟩,
    (liftOp_congr _ m m2 g hg).1, (liftOp_congr _ m m2 g hg).2,
    (liftOp_congr _ m m2 g hg).1, (liftOp_congr _ m m2 g hg).2,
    (liftOp_congr _ m m2 g hg).1, (liftOp_congr _ m m2 g hg).2,
    (liftOp_congr _ m m2 g hg).1, (liftOp_congr _ m m2 g hg).2,
    (liftOp_congr _ m m2 g hg).1, (liftOp_congr _ m m2 g hg).2,
    (liftOp_congr _ m m2 g hg).1, (liftOp_congr _ m m2 g hg).2, ?_⟩
  · simp [clear_game_state, hb]
  · simp [clear_game_state]

/-- Sample store holding only game G1. -/
def wStore : Store :=
  fun g2 => if g2 = "G1" then some wState else none

theorem C9_game_isolation_witness :
    ((get_controller_state wStore "G1" 100).2 "G2" = wStore "G2" ∧
     (claim_role wStore "G1" RoleType.activeCoach "alice" "Alice" 100).2 "G2" = wStore "G2" ∧
     (request_handoff wStore "G1" RoleType.activeCoach "alice" "Alice" 100).2 "G2" = wStore "G2" ∧
     (respond_to_handoff wStore "G1" "alice" true 100).2 "G2" = wStore "G2" ∧
     (release_role wStore "G1" RoleType.activeCoach "alice").2 "G2" = wStore "G2" ∧
     (ping_role wStore "G1" RoleType.activeCoach "alice" 100).2 "G2" = wStore "G2" ∧
     clear_game_state wStore "G1" "G2" = wStore "G2") ∧
    ((get_controller_state wStore "G1" 100).1 = (get_controller_state wStore "G1" 100).1 ∧
     (get_controller_state wStore "G1" 100).2 "G1" = (get_controller_state wStore "G1" 100).2 "G1" ∧
     (claim_role wStore "G1" RoleType.activeCoach "alice" "Alice" 100).1 =
       (claim_role wStore "G1" RoleType.activeCoach "alice" "Alice" 100).1 ∧
     (claim_role wStore "G1" RoleType.activeCoach "alice" "Alice" 100).2 "G1" =
       (claim_role wStore "G1" RoleType.activeCoach "alice" "Alice" 100).2 "G1" ∧
     (request_handoff wStore "G1" RoleType.activeCoach "alice" "Alice" 100).1 =
       (request_handoff wStore "G1" RoleType.activeCoach "alice" "Alice" 100).1 ∧
     (request_handoff wStore "G1" RoleType.activeCoach "alice" "Alice" 100).2 "G1" =
       (request_handoff wStore "G1" RoleType.activeCoach "alice" "Alice" 100).2 "G1" ∧
     (respond_to_handoff wStore "G1" "alice" true 100).1 =
       (respond_to_handoff wStore "G1" "alice" true 100).1 ∧
     (respond_to_handoff wStore "G1" "alice" true 100).2 "G1" =
       (respond_to_handoff wStore "G1" "alice" true 100).2 "G1" ∧
     (release_role wStore "G1" RoleType.activeCoach "alice").1 =
       (release_role wStore "G1" RoleType.activeCoach "alice").1 ∧
     (release_role wStore "G1" RoleType.activeCoach "alice").2 "G1" =
       (release_role wStore "G1" RoleType.activeCoach "alice").2 "G1" ∧
     (ping_role wStore "G1" RoleType.activeCoach "alice" 100).1 =
       (ping_role wStore "G1" RoleType.activeCoach "alice" 100).1 ∧
     (ping_role wStore "G1" RoleType.activeCoach "alice" 100).2 "G1" =
       (ping_role wStore "G1" RoleType.activeCoach "alice" 100).2 "G1" ∧
     clear_game_state wStore "G1" "G1" = clear_game_state wStore "G1" "G1") :=
  C9_game_isolation wStore wStore "G1" "G2" 100 RoleType.activeCoach "alice" "Alice" true
    (by decide) rfl

end Coordinator
